import Mathlib

/-!
Shallow embedding of `qutip/continous_variables.py`: continuous-variable
statistics for coupled harmonic modes — covariance matrices, field and
quadrature correlation matrices, the Wigner covariance matrix and the
logarithmic negativity.  Operators (qutip `Qobj`) are modelled as square
complex matrices; floating-point arithmetic is idealised as real/complex
arithmetic, with `np.sqrt` and `np.log` modelled by `Real.sqrt` and
`Real.log`.
-/

open Matrix

/-- Operators on a `d`-dimensional Hilbert space (qutip `Qobj`), modelled as
`d × d` complex matrices.  The dagger `a.dag()` is the conjugate transpose
`aᴴ`. -/
abbrev Op (d : ℕ) := Matrix (Fin d) (Fin d) ℂ

/-- Modelled from the spec: the expectation-value evaluator `expect`
(imported in the source from `qutip.expect`, not under `src/`) reduces an
operator and a density matrix to a scalar; the spec's glossary defines it as
`⟨O⟩ = Tr(O·rho)`. -/
noncomputable def expect {d : ℕ} (op rho : Op d) : ℂ :=
  (op * rho).trace

/-- `covariance_matrix(basis, rho)` from the source: the N×N array
`[[expect(op1*op2 + op2*op1, rho) - expect(op1, rho)*expect(op2, rho)
for op1 in basis] for op2 in basis]`; the outer comprehension variable `op2`
indexes rows, the inner `op1` indexes columns. -/
noncomputable def covariance_matrix {d N : ℕ} (basis : Fin N → Op d) (rho : Op d) :
    Matrix (Fin N) (Fin N) ℂ :=
  Matrix.of fun op2 op1 =>
    expect (basis op1 * basis op2 + basis op2 * basis op1) rho -
      expect (basis op1) rho * expect (basis op2) rho

/-- Result of `_correlation_matrix`: an N×N array of operators (symbolic
mode, `rho` omitted) or of scalars (numeric mode, `rho` given). -/
inductive CorrResult (d N : ℕ) where
  | ops (m : Matrix (Fin N) (Fin N) (Op d))
  | nums (m : Matrix (Fin N) (Fin N) ℂ)

/-- `_correlation_matrix(basis, rho=None)` from the source: with `rho` None
it returns `[[op1 * op2 for op1 in basis] for op2 in basis]` (operators),
otherwise `[[expect(op1 * op2, rho) ...]]`; outer variable `op2` is the row
index, inner `op1` the column index. -/
noncomputable def _correlation_matrix {d N : ℕ} (basis : Fin N → Op d)
    (rho : Option (Op d)) : CorrResult d N :=
  match rho with
  | none => CorrResult.ops (Matrix.of fun op2 op1 => basis op1 * basis op2)
  | some r => CorrResult.nums (Matrix.of fun op2 op1 => expect (basis op1 * basis op2) r)

/-- `correlation_matrix_quadrature(a1, a2, rho=None)` from the source:
builds `x1 = (a1 + a1.dag())/sqrt(2)`, `p1 = 1j*(a1 - a1.dag())/sqrt(2)`,
`x2`, `p2` likewise from `a2`, and delegates to `_correlation_matrix` on the
basis `[x1, p1, x2, p2]`. -/
noncomputable def correlation_matrix_quadrature {d : ℕ} (a1 a2 : Op d)
    (rho : Option (Op d)) : CorrResult d 4 :=
  let x1 := ((Real.sqrt 2 : ℂ))⁻¹ • (a1 + a1ᴴ)
  let p1 := ((Real.sqrt 2 : ℂ))⁻¹ • (Complex.I • (a1 - a1ᴴ))
  let x2 := ((Real.sqrt 2 : ℂ))⁻¹ • (a2 + a2ᴴ)
  let p2 := ((Real.sqrt 2 : ℂ))⁻¹ • (Complex.I • (a2 - a2ᴴ))
  _correlation_matrix ![x1, p1, x2, p2] rho

/-- A dynamically typed entry of the precomputed correlation matrix `R`
passed to `wigner_covariance_matrix`: per the spec, entries are "either
scalars or Operators". -/
inductive PyVal (d : ℕ) where
  | num (z : ℂ)
  | op (A : Op d)

/-- Addition of two dynamically typed `R` entries.  Scalar + scalar and
operator + operator are entrywise; a scalar added to a qutip operator adds
the scalar times the identity (qutip `Qobj.__add__` convention, external to
this module). -/
noncomputable def PyVal.add {d : ℕ} : PyVal d → PyVal d → PyVal d
  | PyVal.num y, PyVal.num z => PyVal.num (y + z)
  | PyVal.op A, PyVal.op B => PyVal.op (A + B)
  | PyVal.num y, PyVal.op B => PyVal.op (y • (1 : Op d) + B)
  | PyVal.op A, PyVal.num z => PyVal.op (A + z • (1 : Op d))

/-- `np.real` applied to an `R`-matrix entry, as in the `rho is None` branch
of `wigner_covariance_matrix`: defined on scalars; on an operator entry the
surrounding numpy call fails externally. -/
def PyVal.npReal {d : ℕ} : PyVal d → Except String ℂ
  | PyVal.num z => Except.ok (z.re : ℂ)
  | PyVal.op _ => Except.error "external type error"

/-- `np.real(expect(·, rho))` applied to an `R`-matrix entry, as in the
`rho` branch of `wigner_covariance_matrix`: defined on operator entries; on
a scalar entry `expect` fails externally. -/
noncomputable def PyVal.expectRe {d : ℕ} (rho : Op d) : PyVal d → Except String ℂ
  | PyVal.op A => Except.ok ((expect A rho).re : ℂ)
  | PyVal.num _ => Except.error "external type error"

/-- Collect a 4×4 matrix of elementwise results, failing when any entry
failed (the numpy comprehension evaluates every entry and propagates the
exception of a failing one). -/
def seqMatrix (M : Matrix (Fin 4) (Fin 4) (Except String ℂ)) :
    Except String (Matrix (Fin 4) (Fin 4) ℂ) :=
  if _h : ∀ j i : Fin 4, (M j i).isOk = true then
    Except.ok (Matrix.of fun j i => (M j i).toOption.getD 0)
  else
    Except.error "external type error"

/-- `wigner_covariance_matrix(a1=None, a2=None, R=None, rho=None)` from the
source, with its dispatch on argument presence: if `R` is not None it
returns `[[np.real(R[i, j] + R[j, i]) for i in range(4)] for j in range(4)]`
(`rho` None) or the same with `expect(..., rho)` inside `np.real`; else if
`a1` and `a2` are both not None it requires `rho` and returns
`covariance_matrix([x1, p1, x2, p2], rho)` built from the quadratures of
`a1` and `a2`; otherwise it raises.  `ValueError`s become `Except.error`
with the source's message. -/
noncomputable def wigner_covariance_matrix {d : ℕ} (a1 a2 : Option (Op d))
    (R : Option (Matrix (Fin 4) (Fin 4) (PyVal d))) (rho : Option (Op d)) :
    Except String (Matrix (Fin 4) (Fin 4) ℂ) :=
  match R with
  | some Rm =>
    match rho with
    | none =>
      seqMatrix (Matrix.of fun j i => PyVal.npReal (PyVal.add (Rm i j) (Rm j i)))
    | some r =>
      seqMatrix (Matrix.of fun j i => PyVal.expectRe r (PyVal.add (Rm i j) (Rm j i)))
  | none =>
    match a1, a2 with
    | some b1, some b2 =>
      match rho with
      | some r =>
        let x1 := ((Real.sqrt 2 : ℂ))⁻¹ • (b1 + b1ᴴ)
        let p1 := ((Real.sqrt 2 : ℂ))⁻¹ • (Complex.I • (b1 - b1ᴴ))
        let x2 := ((Real.sqrt 2 : ℂ))⁻¹ • (b2 + b2ᴴ)
        let p2 := ((Real.sqrt 2 : ℂ))⁻¹ • (Complex.I • (b2 - b2ᴴ))
        Except.ok (covariance_matrix ![x1, p1, x2, p2] r)
      | none =>
        Except.error "Must give rho if using field operators (a1 and a2)"
    | _, _ =>
      Except.error "Must give either field operators (a1 and a2) or a precomputed correlation matrix (R)"

/-- `wigner_logarithm_negativity(V)` from the source: blocks
`A = V[0:2, 0:2]`, `B = V[2:4, 2:4]`, `C = V[0:2, 2:4]`,
`sigma = det(A) + det(B) - 2*det(C)`,
`nu = sqrt(sigma/2 - sqrt(sigma**2 - 4*det(V))/2)`,
`lognu = -log(2*nu)`, returning `max(0, lognu)`. -/
noncomputable def wigner_logarithm_negativity (V : Matrix (Fin 4) (Fin 4) ℝ) : ℝ :=
  let A := !![V 0 0, V 0 1; V 1 0, V 1 1]
  let B := !![V 2 2, V 2 3; V 3 2, V 3 3]
  let C := !![V 0 2, V 0 3; V 1 2, V 1 3]
  let sigma := A.det + B.det - 2 * C.det
  let nu := Real.sqrt (sigma / 2 - Real.sqrt (sigma ^ 2 - 4 * V.det) / 2)
  let lognu := -Real.log (2 * nu)
  max 0 lognu

/-- Helper: `seqMatrix` only ever fails with the external-type-error
message, never with one of the module's own `ValueError` messages. -/
theorem seqMatrix_error_msg (M : Matrix (Fin 4) (Fin 4) (Except String ℂ))
    (s : String) (h : seqMatrix M = Except.error s) : s = "external type error" := by
  unfold seqMatrix at h
  split at h
  · simp at h
  · injection h with h2
    exact h2.symm

/-- C1: `wigner_logarithm_negativity(V)` computes
`sigma = det(V[0:2,0:2]) + det(V[2:4,2:4]) - 2*det(V[0:2,2:4])`, then
`nu = sqrt(sigma/2 - sqrt(sigma^2 - 4*det(V))/2)`, then `lognu = -log(2*nu)`,
and returns `max(0, lognu)`, clamped to be at least zero. -/
theorem wigner_logarithm_negativity_formula (V : Matrix (Fin 4) (Fin 4) ℝ) :
    wigner_logarithm_negativity V =
      max 0 (-Real.log (2 * Real.sqrt (
        (Matrix.det !![V 0 0, V 0 1; V 1 0, V 1 1] +
           Matrix.det !![V 2 2, V 2 3; V 3 2, V 3 3] -
           2 * Matrix.det !![V 0 2, V 0 3; V 1 2, V 1 3]) / 2 -
        Real.sqrt ((Matrix.det !![V 0 0, V 0 1; V 1 0, V 1 1] +
           Matrix.det !![V 2 2, V 2 3; V 3 2, V 3 3] -
           2 * Matrix.det !![V 0 2, V 0 3; V 1 2, V 1 3]) ^ 2 -
          4 * V.det) / 2))) := by
  rfl

/-- C8: `wigner_logarithm_negativity` returns a non-negative real number;
this holds for every 4×4 real input matrix, in particular for every valid
physical covariance matrix. -/
theorem wigner_logarithm_negativity_nonneg (V : Matrix (Fin 4) (Fin 4) ℝ) :
    0 ≤ wigner_logarithm_negativity V := by
  exact le_max_left 0 _

/-- C2: `covariance_matrix(basis, rho)` is the N×N matrix whose entry at row
`op2 = basis j`, column `op1 = basis i` is
`expect(op1*op2 + op2*op1, rho) - expect(op1, rho)*expect(op2, rho)`. -/
theorem covariance_matrix_entry {d N : ℕ} (basis : Fin N → Op d) (rho : Op d)
    (j i : Fin N) :
    covariance_matrix basis rho j i =
      expect (basis i * basis j + basis j * basis i) rho -
        expect (basis i) rho * expect (basis j) rho := by
  rfl

/-- C7: the matrix returned by `covariance_matrix` is symmetric,
`C[i][j] = C[j][i]`; this holds for every basis and every `rho`, in
particular for Hermitian bases and valid density matrices. -/
theorem covariance_matrix_symm {d N : ℕ} (basis : Fin N → Op d) (rho : Op d)
    (i j : Fin N) :
    covariance_matrix basis rho i j = covariance_matrix basis rho j i := by
  show expect (basis j * basis i + basis i * basis j) rho -
      expect (basis j) rho * expect (basis i) rho = _
  rw [add_comm (basis j * basis i), mul_comm (expect (basis j) rho)]
  rfl

/-- C5: `_correlation_matrix(basis)` with `rho` omitted is the matrix of
operators `M[row][col] = basis[col] * basis[row]` (plain product, no
symmetrization), and with `rho` given it is the matrix of scalars
`M[row][col] = expect(basis[col] * basis[row], rho)`. -/
theorem correlation_matrix_modes {d N : ℕ} (basis : Fin N → Op d) (rho : Op d) :
    _correlation_matrix basis none =
        CorrResult.ops (Matrix.of fun row col => basis col * basis row) ∧
      _correlation_matrix basis (some rho) =
        CorrResult.nums (Matrix.of fun row col => expect (basis col * basis row) rho) :=
  ⟨rfl, rfl⟩

/-- C6: `correlation_matrix_quadrature(a1, a2, rho)` builds the quadratures
`x1 = (a1 + a1†)/√2`, `p1 = i(a1 - a1†)/√2`, `x2 = (a2 + a2†)/√2`,
`p2 = i(a2 - a2†)/√2` and returns `_correlation_matrix([x1, p1, x2, p2],
rho)`, a 4×4 result. -/
theorem correlation_matrix_quadrature_spec {d : ℕ} (a1 a2 : Op d)
    (rho : Option (Op d)) :
    correlation_matrix_quadrature a1 a2 rho =
      _correlation_matrix
        ![((Real.sqrt 2 : ℂ))⁻¹ • (a1 + a1ᴴ),
          ((Real.sqrt 2 : ℂ))⁻¹ • (Complex.I • (a1 - a1ᴴ)),
          ((Real.sqrt 2 : ℂ))⁻¹ • (a2 + a2ᴴ),
          ((Real.sqrt 2 : ℂ))⁻¹ • (Complex.I • (a2 - a2ᴴ))] rho := by
  rfl

/-- C9: when `R` is given, the result of `wigner_covariance_matrix` does not
depend on `a1` or `a2`: the `R` branch is dispatched first and the field
operators are ignored even when supplied. -/
theorem wigner_covariance_matrix_R_ignores_fields {d : ℕ}
    (a1 a2 a1' a2' : Option (Op d)) (Rm : Matrix (Fin 4) (Fin 4) (PyVal d))
    (rho : Option (Op d)) :
    wigner_covariance_matrix a1 a2 (some Rm) rho =
      wigner_covariance_matrix a1' a2' (some Rm) rho := by
  rfl

/-- C3: with `R` given and `rho` None, `wigner_covariance_matrix` returns
the 4×4 matrix `V[i][j] = Re(R[i][j] + R[j][i])`; with `rho` also given,
each operator sum is reduced via expectation before the real part is taken:
`V[i][j] = Re(expect(R[i][j] + R[j][i], rho))`. -/
theorem wigner_covariance_matrix_R_branch {d : ℕ} (a1 a2 : Option (Op d))
    (r : Matrix (Fin 4) (Fin 4) ℂ) (S : Matrix (Fin 4) (Fin 4) (Op d))
    (rho : Op d) :
    wigner_covariance_matrix a1 a2
        (some (Matrix.of fun i j => PyVal.num (r i j))) none =
        Except.ok (Matrix.of fun i j => ((r i j + r j i).re : ℂ)) ∧
      wigner_covariance_matrix a1 a2
        (some (Matrix.of fun i j => PyVal.op (S i j))) (some rho) =
        Except.ok (Matrix.of fun i j => ((expect (S i j + S j i) rho).re : ℂ)) := by
  constructor
  · show seqMatrix _ = _
    rw [seqMatrix]
    split
    · refine congrArg Except.ok ?_
      ext j i
      show ((r i j + r j i).re : ℂ) = ((r j i + r i j).re : ℂ)
      rw [add_comm]
    · next h => exact absurd (fun j i => rfl) h
  · show seqMatrix _ = _
    rw [seqMatrix]
    split
    · refine congrArg Except.ok ?_
      ext j i
      show ((expect (S i j + S j i) rho).re : ℂ) = ((expect (S j i + S i j) rho).re : ℂ)
      rw [add_comm (S i j)]
    · next h => exact absurd (fun j i => rfl) h

/-- C4 counterexample: with `a1` and `a2` given, `R` and `rho` omitted,
`wigner_covariance_matrix` raises a `ValueError` whose message is
"Must give rho if using field operators (a1 and a2)", which is not the
string "Must give rho if using field operators" stated by the claim. -/
theorem wigner_covariance_matrix_rho_message_counterexample :
    wigner_covariance_matrix (d := 1) (some 1) (some 1) none none =
        Except.error "Must give rho if using field operators (a1 and a2)" ∧
      "Must give rho if using field operators (a1 and a2)" ≠
        "Must give rho if using field operators" :=
  ⟨rfl, by decide⟩

/-- C4 (amended): with `a1` and `a2` given, `R` omitted and `rho` omitted,
`wigner_covariance_matrix` fails with the message
"Must give rho if using field operators (a1 and a2)"; whenever neither `R`
nor both of `a1` and `a2` are given it fails with the message
"Must give either field operators (a1 and a2) or a precomputed correlation
matrix (R)"; in both cases no result is produced. -/
theorem wigner_covariance_matrix_errors :
    (∀ (d : ℕ) (b1 b2 : Op d),
        wigner_covariance_matrix (some b1) (some b2) none none =
          Except.error "Must give rho if using field operators (a1 and a2)") ∧
      (∀ (d : ℕ) (rho : Option (Op d)),
        wigner_covariance_matrix none none none rho =
          Except.error
            "Must give either field operators (a1 and a2) or a precomputed correlation matrix (R)") ∧
      (∀ (d : ℕ) (b2 : Op d) (rho : Option (Op d)),
        wigner_covariance_matrix none (some b2) none rho =
          Except.error
            "Must give either field operators (a1 and a2) or a precomputed correlation matrix (R)") ∧
      (∀ (d : ℕ) (b1 : Op d) (rho : Option (Op d)),
        wigner_covariance_matrix (some b1) none none rho =
          Except.error
            "Must give either field operators (a1 and a2) or a precomputed correlation matrix (R)") :=
  ⟨fun _ _ _ => rfl, fun _ _ => rfl, fun _ _ _ => rfl, fun _ _ _ => rfl⟩

/-- C10: with `R` omitted and exactly one of `a1`, `a2` given,
`wigner_covariance_matrix` fails with the invalid-combination message
regardless of `rho`; and the "Must give rho" message is only reachable when
both `a1` and `a2` are non-None. -/
theorem wigner_covariance_matrix_single_field_dispatch :
    (∀ (d : ℕ) (b1 : Op d) (rho : Option (Op d)),
        wigner_covariance_matrix (some b1) none none rho =
          Except.error
            "Must give either field operators (a1 and a2) or a precomputed correlation matrix (R)") ∧
      (∀ (d : ℕ) (b2 : Op d) (rho : Option (Op d)),
        wigner_covariance_matrix none (some b2) none rho =
          Except.error
            "Must give either field operators (a1 and a2) or a precomputed correlation matrix (R)") ∧
      (∀ (d : ℕ) (a1 a2 : Option (Op d))
          (R : Option (Matrix (Fin 4) (Fin 4) (PyVal d))) (rho : Option (Op d)),
        wigner_covariance_matrix a1 a2 R rho =
            Except.error "Must give rho if using field operators (a1 and a2)" →
          a1.isSome ∧ a2.isSome) := by
  refine ⟨fun _ _ _ => rfl, fun _ _ _ => rfl, fun d a1 a2 R rho h => ?_⟩
  cases R with
  | some Rm =>
    exfalso
    cases rho with
    | none => exact absurd (seqMatrix_error_msg _ _ h) (by decide)
    | some r => exact absurd (seqMatrix_error_msg _ _ h) (by decide)
  | none =>
    cases a1 with
    | none =>
      cases a2 with
      | none =>
        simp only [wigner_covariance_matrix, Except.error.injEq] at h
        exact absurd h (by decide)
      | some b2 =>
        simp only [wigner_covariance_matrix, Except.error.injEq] at h
        exact absurd h (by decide)
    | some b1 =>
      cases a2 with
      | none =>
        simp only [wigner_covariance_matrix, Except.error.injEq] at h
        exact absurd h (by decide)
      | some b2 => exact ⟨rfl, rfl⟩

/-- Witness for C10: a concrete single-operator call hits the
invalid-combination error, and the "Must give rho" message at a concrete
call with both operators implies both were given. -/
theorem wigner_covariance_matrix_single_field_dispatch_witness :
    wigner_covariance_matrix (d := 1) (some 1) none none none =
        Except.error
          "Must give either field operators (a1 and a2) or a precomputed correlation matrix (R)" ∧
      ((some (1 : Op 1)).isSome ∧ (some (1 : Op 1)).isSome) :=
  ⟨wigner_covariance_matrix_single_field_dispatch.1 1 1 none,
   wigner_covariance_matrix_single_field_dispatch.2.2 1 (some 1) (some 1) none none rfl⟩
